import Mathlib

/-!
Shallow embedding of the R720 fan-control daemon (`src/control.py`).

Modelling conventions:
* CPU-usage percentages, temperature rates and timestamps are Python floats;
  they are embedded as `ℚ` (the program only compares and does exact
  small-denominator arithmetic on them).
* Temperatures are `ℤ` (the source truncates every reading with `int(float(_))`).
* The actuator (`run_ipmitool` / `set_fan_speed`) returns `True`/`False` after
  its internal retry loop; a tick's actuator outcome is embedded as a single
  `Bool` (`set_ok`).  Calls and notifications are recorded as an event list.
* Python exceptions that escape a function are embedded as `Except PyErr`.
* Reason strings keep the fixed prefix of the source's f-strings; the numeric
  interpolation is dropped (no claim mentions it).
-/

/-- `HOLD_TIME = 30` seconds (control.py line 17). -/
def HOLD_TIME : ℚ := 30

/-- `DROP_DELAY = 30` seconds (control.py line 18). -/
def DROP_DELAY : ℚ := 30

/-- Exceptions that can escape the modelled fragments. -/
inductive PyErr where
  | indexError
  | valueError
  | keyError
  deriving DecidableEq, Repr

/-- The `temps` dict built by `get_sensor_data` (control.py lines 70-81); its
only possible keys are the four fixed ones, so it is a record of options. -/
structure Temps where
  inlet : Option ℤ := none
  exhaust : Option ℤ := none
  cpu1 : Option ℤ := none
  cpu2 : Option ℤ := none
  deriving DecidableEq, Repr

deriving instance DecidableEq for Except

/-- Python dict truthiness: non-empty. -/
def Temps.nonempty (t : Temps) : Bool :=
  t.inlet.isSome || t.exhaust.isSome || t.cpu1.isSome || t.cpu2.isSome

/-- Python `str.split` on a single separator character: a sensor line is a
character list, split into fields. -/
def splitOnChar (c : Char) (cs : List Char) : List (List Char) :=
  cs.foldr
    (fun x acc =>
      match acc with
      | [] => [[x]]
      | a :: rest => if x = c then [] :: a :: rest else (x :: a) :: rest)
    [[]]

/-- Python `str.strip()`: drop whitespace from both ends. -/
def stripChars (cs : List Char) : List Char :=
  ((cs.dropWhile Char.isWhitespace).reverse.dropWhile Char.isWhitespace).reverse

/-- Python substring test `needle in hay`. -/
def containsSub (needle hay : List Char) : Bool :=
  hay.tails.any fun t => needle.isPrefixOf t

/-- Numeric value of a digit string (empty counts as 0, as in the integer
part of a Python float literal such as `.5`). -/
def digitsVal (cs : List Char) : ℤ :=
  cs.foldl (fun a c => a * 10 + (c.toNat - 48)) 0

/-- Model of Python `int(float(s))` on plain decimal literals: surrounding
whitespace stripped, optional sign, digits with at most one decimal point,
truncation toward zero.  `none` where Python `float` raises `ValueError`.
Exponent / `inf` / `nan` / underscore forms are outside the modelled input
space. -/
def parseFloatTrunc (cs0 : List Char) : Option ℤ :=
  let t := stripChars cs0
  let sgn : ℤ := if t.headD ' ' = '-' then -1 else 1
  let body := if t.headD ' ' = '-' ∨ t.headD ' ' = '+' then t.tail else t
  match splitOnChar '.' body with
  | [ip] =>
      if ip ≠ [] ∧ ip.all Char.isDigit then some (sgn * digitsVal ip)
      else none
  | [ip, fp] =>
      if (ip ≠ [] ∨ fp ≠ []) ∧ ip.all Char.isDigit ∧ fp.all Char.isDigit then
        some (sgn * digitsVal ip)
      else none
  | _ => none

/-- One iteration of the parsing loop of `get_sensor_data`
(control.py lines 71-80).  `parts[1]` raises `IndexError` when the line has no
pipe, and `int(float(parts[1]))` raises `ValueError` on a non-numeric field;
only `subprocess.CalledProcessError` is caught by the function, so both
propagate. -/
def parseSensorLine (t : Temps) (line : List Char) : Except PyErr Temps :=
  let parts := (splitOnChar '|' line).map stripChars
  let p0 := parts.headD []
  let field1 : Except PyErr ℤ :=
    match parts.get? 1 with
    | none => .error .indexError
    | some p1 =>
        match parseFloatTrunc p1 with
        | none => .error .valueError
        | some v => .ok v
  if containsSub "Inlet Temp".toList p0 then
    field1.map fun v => { t with inlet := some v }
  else if containsSub "Exhaust Temp".toList p0 then
    field1.map fun v => { t with exhaust := some v }
  else if p0 = "Temp".toList ∧ t.cpu1 = none then
    field1.map fun v => { t with cpu1 := some v }
  else if p0 = "Temp".toList then
    field1.map fun v => { t with cpu2 := some v }
  else .ok t

/-- `get_sensor_data` (control.py lines 67-84).  `invokeOk = false` models
`subprocess.check_output` raising `CalledProcessError`, the only exception the
function catches: it logs and returns `None`.  On success the output lines
(each a character list) are folded through the parsing loop; parse exceptions
escape as `.error`. -/
def get_sensor_data (invokeOk : Bool) (output : List (List Char)) :
    Except PyErr (Option Temps) :=
  if invokeOk then
    (output.foldlM parseSensorLine {} : Except PyErr Temps).map some
  else
    .ok none

/-- Temperature-side state of the main loop: the globals `max_temp`,
`last_max_temp`, `temp_window` and the function-local `temp_rate` /
`temp_trend`, which persist across `while` iterations.  The locals are read
only after a successful assignment (the `len(temp_window) ≥ 5` guard), so the
start-of-loop value `0` / `""` is never observable. -/
structure TempState where
  max_temp : ℤ
  last_max_temp : ℤ
  temp_window : List ℤ
  temp_rate : ℚ
  temp_trend : String
  deriving DecidableEq, Repr

/-- Initial temperature state (control.py lines 31-38). -/
def initTempState : TempState :=
  { max_temp := 25, last_max_temp := 25, temp_window := [], temp_rate := 0,
    temp_trend := "" }

/-- `deque(maxlen=25).append`: FIFO eviction at capacity. -/
def dequeAppend (cap : ℕ) (w : List ℤ) (x : ℤ) : List ℤ :=
  let w' := w ++ [x]
  if w'.length > cap then w'.drop (w'.length - cap) else w'

/-- Python `list[-5:]`: the last five elements (all of them when fewer). -/
def lastN (n : ℕ) (w : List ℤ) : List ℤ :=
  w.drop (w.length - n)

/-- Python `min` on a list; the source only applies it under the
`len(temp_window) >= 5` guard, so the empty default is never reached. -/
def listMin (w : List ℤ) : ℤ :=
  match w with
  | [] => 0
  | x :: xs => xs.foldl min x

/-- Successful-read body of the temperature section (control.py lines
155-160): take the max of the four readings, append it to the window, compute
the trend against `last_max_temp` (note the `len(temp_window) > 1` conjunct on
the rising arm only), compute the 5-sample rate, then update `last_max_temp`. -/
def tempUpdate (ts : TempState) (inlet exhaust cpu1 cpu2 : ℤ) : TempState :=
  let mt := max (max inlet exhaust) (max cpu1 cpu2)
  let w := dequeAppend 25 ts.temp_window mt
  let trend :=
    if w.length > 1 ∧ mt > ts.last_max_temp then "rising"
    else if mt = ts.last_max_temp then "stable"
    else "falling"
  let rate : ℚ :=
    if w.length ≥ 5 then ((mt - listMin (lastN 5 w) : ℤ) : ℚ) / 5 else 0
  { max_temp := mt, last_max_temp := mt, temp_window := w, temp_rate := rate,
    temp_trend := trend }

/-- Temperature section of a main-loop tick (control.py lines 153-160):
`temps = get_sensor_data()` followed by `if temps:` (both `None` and the empty
dict are falsy and skip the update).  The four dict subscripts on line 155
raise `KeyError` when a labelled row was missing; exceptions escaping
`get_sensor_data` also surface here, crashing the loop. -/
def mainTempSection (ts : TempState) (sensor : Except PyErr (Option Temps)) :
    Except PyErr TempState :=
  match sensor with
  | .error e => .error e
  | .ok none => .ok ts
  | .ok (some t) =>
      if t.nonempty then
        match t.inlet, t.exhaust, t.cpu1, t.cpu2 with
        | some i, some e, some c1, some c2 => .ok (tempUpdate ts i e c1 c2)
        | _, _, _, _ => .error .keyError
      else .ok ts

/-- Decision engine (control.py lines 162-206): pure first-match proposal of
`(new_speed, reason)` from the spike snapshot, `max_temp`, `temp_rate` and the
temperature-window length. -/
def propose (spike_detected : Bool) (spike_size : ℚ) (max_temp : ℤ)
    (temp_rate : ℚ) (window_len : ℕ) : ℕ × String :=
  if spike_detected then
    if spike_size > 25 then (100, "extreme usage spike")
    else if spike_size > 15 then (80, "large usage spike")
    else if spike_size > 10 then (60, "moderate usage spike")
    else (40, "small usage spike")
  else
    if max_temp ≥ 50 then (100, "high temp")
    else if max_temp ≥ 45 then (80, "moderate temp")
    else if max_temp ≥ 40 then (60, "sustained temp")
    else if max_temp ≥ 30 then (40, "idle temp")
    else if window_len ≥ 5 ∧ temp_rate > 1/2 then (80, "fast temp rise")
    else (25, "low temp")

/-- `last_trigger` record (control.py line 36). -/
structure Trigger where
  usage : ℚ
  temp : ℤ
  time : ℚ
  reason : String
  deriving DecidableEq, Repr

/-- Initial `last_trigger`. -/
def initTrigger : Trigger := { usage := 0, temp := 0, time := 0, reason := "" }

/-- Persistent state of the Speed Controller (control.py lines 33-36).
`drop_delay_start = 0` encodes "no decrease pending". -/
structure CState where
  current_speed : ℕ
  cooldown_end : ℚ
  drop_delay_start : ℚ
  last_trigger : Trigger
  deriving DecidableEq, Repr

/-- Initial controller state (speed 25, no cooldown, no pending drop). -/
def initCState : CState :=
  { current_speed := 25, cooldown_end := 0, drop_delay_start := 0,
    last_trigger := initTrigger }

/-- Per-tick inputs the apply-speed logic reads besides the proposal: the
spike snapshot, `now = time.time()`, the actuator outcome for this tick's
(at most one) `set_fan_speed` call, and the usage figures recorded into
`last_trigger`. -/
structure TickIn where
  spike_detected : Bool
  spike_size : ℚ
  now : ℚ
  set_ok : Bool
  usage : ℚ
  usage_avg : ℚ
  deriving DecidableEq, Repr

/-- Observable actions of one tick: each `set_fan_speed` call with its
requested level and outcome, and each fired notification with its direction. -/
inductive Event where
  | setSpeed : ℕ → Bool → Event
  | notified : String → ℕ → Event
  deriving DecidableEq, Repr

/-- The apply-speed logic of a main-loop tick (control.py lines 209-242),
given the proposed `new_speed`.  Returns the successor controller state and
the tick's events.  The unconditional `spike_detected = False` resets on lines
221 and 244 touch only the sampler's shared flag, not this state. -/
def applySpeed (s : CState) (inp : TickIn) (new_speed : ℕ) (mt : ℤ)
    (reason : String) : CState × List Event :=
  if new_speed ≠ s.current_speed then
    if new_speed > s.current_speed ∨
        (inp.spike_detected ∧ new_speed ≥ s.current_speed) then
      if inp.set_ok then
        ({ current_speed := new_speed,
           cooldown_end := inp.now + HOLD_TIME,
           drop_delay_start := 0,
           last_trigger :=
             { usage := inp.usage_avg, temp := mt, time := inp.now,
               reason := reason } },
         [.setSpeed new_speed true, .notified "Increased" new_speed])
      else
        (s, [.setSpeed new_speed false])
    else
      if s.drop_delay_start = 0 then
        ({ s with drop_delay_start := inp.now }, [])
      else if inp.now - s.drop_delay_start ≥ DROP_DELAY ∧
          inp.now ≥ s.cooldown_end then
        if inp.set_ok then
          ({ current_speed := new_speed,
             cooldown_end := inp.now + HOLD_TIME,
             drop_delay_start := 0,
             last_trigger :=
               { usage := inp.usage_avg, temp := mt, time := inp.now,
                 reason := reason } },
           [.setSpeed new_speed true, .notified "Decreased" new_speed])
        else
          (s, [.setSpeed new_speed false])
      else
        (s, [])
  else
    ({ s with drop_delay_start := 0 }, [])

/-- Whether the tick called `set_fan_speed` with level `t`. -/
def madeSetCall (evs : List Event) (t : ℕ) : Bool :=
  evs.any fun e =>
    match e with
    | .setSpeed u _ => u = t
    | .notified _ _ => false

/-- Whether the tick fired no notification. -/
def noNotify (evs : List Event) : Bool :=
  evs.all fun e =>
    match e with
    | .setSpeed _ _ => true
    | .notified _ _ => false

/-- Whole main-loop state threaded across iterations. -/
structure LoopState where
  ctrl : CState
  temps : TempState
  deriving DecidableEq, Repr

/-- Result of one main-loop tick that did not crash. -/
structure TickOut where
  state : LoopState
  proposal : ℕ
  events : List Event
  deriving DecidableEq, Repr

/-- One main-loop iteration (control.py lines 152-245): temperature section,
decision engine on the post-section temperature state, then the apply-speed
logic.  An exception escaping the temperature section crashes the tick. -/
def tick (s : LoopState) (sensor : Except PyErr (Option Temps)) (inp : TickIn) :
    Except PyErr TickOut :=
  match mainTempSection s.temps sensor with
  | .error e => .error e
  | .ok ts =>
      let p := propose inp.spike_detected inp.spike_size ts.max_temp
        ts.temp_rate ts.temp_window.length
      let r := applySpeed s.ctrl inp p.1 ts.max_temp p.2
      .ok { state := { ctrl := r.1, temps := ts }, proposal := p.1,
            events := r.2 }

/-- Modelled from the spec: the decision table exactly as the claim words it
(first-match order: spike magnitude bands, then temperature bands, then the
fast-rise override, then the idle floor); defined only to be compared against
the source-derived `propose`. -/
def proposeSpecTable (spike_detected : Bool) (spike_size : ℚ) (max_temp : ℤ)
    (temp_rate : ℚ) (window_len : ℕ) : ℕ :=
  if spike_detected then
    if spike_size > 25 then 100
    else if spike_size > 15 then 80
    else if spike_size > 10 then 60
    else 40
  else if max_temp ≥ 50 then 100
  else if max_temp ≥ 45 then 80
  else if max_temp ≥ 40 then 60
  else if max_temp ≥ 30 then 40
  else if window_len ≥ 5 ∧ temp_rate > 1/2 then 80
  else 25

/-- C1: the decision engine selects its proposed speed by exactly the
first-match table of the claim; with `spike_detected` the result depends only
on `spike_size` (temperature is pre-empted entirely); in particular
`spike_size = 30, max_temp = 20` proposes 100. -/
theorem propose_matches_claim_table :
    (∀ sd ss mt tr wl, (propose sd ss mt tr wl).1 = proposeSpecTable sd ss mt tr wl)
    ∧ (∀ ss mt mt' tr tr' wl wl',
        (propose true ss mt tr wl).1 = (propose true ss mt' tr' wl').1)
    ∧ (propose true 30 20 0 0).1 = 100 := by
  refine ⟨?_, ?_, by decide⟩
  · intro sd ss mt tr wl
    unfold propose proposeSpecTable
    split_ifs <;> rfl
  · intro ss mt mt' tr tr' wl wl'
    unfold propose
    split_ifs <;> simp_all

/-- C2: an actuator call lowering `current_speed` happens only when a drop
delay is pending, at least `DROP_DELAY` seconds old, and the cooldown has
elapsed; and a tick whose proposal equals `current_speed` clears
`drop_delay_start`, abandoning the pending decrease. -/
theorem decrease_guarded_and_cancelled :
    (∀ (s : CState) (inp : TickIn) (ns : ℕ) (mt : ℤ) (r : String),
        ns < s.current_speed →
        madeSetCall (applySpeed s inp ns mt r).2 ns = true →
        s.drop_delay_start ≠ 0 ∧ inp.now - s.drop_delay_start ≥ DROP_DELAY ∧
          inp.now ≥ s.cooldown_end)
    ∧ (∀ (s : CState) (inp : TickIn) (ns : ℕ) (mt : ℤ) (r : String),
        ns = s.current_speed →
        (applySpeed s inp ns mt r).1.drop_delay_start = 0) := by
  constructor
  · intro s inp ns mt r hlt hcall
    unfold applySpeed at hcall
    split_ifs at hcall with h1 h2 h3 h4 h5 h6
    · rcases h2 with h | h
      · omega
      · omega
    · rcases h2 with h | h
      · omega
      · omega
    · simp [madeSetCall] at hcall
    · exact ⟨h4, h5.1, h5.2⟩
    · exact ⟨h4, h5.1, h5.2⟩
    · simp [madeSetCall] at hcall
    · simp [madeSetCall] at hcall
  · intro s inp ns mt r heq
    subst heq
    unfold applySpeed
    simp

/-- C2 witness: at a concrete pending-decrease state the guard facts hold, and
an equal proposal clears the timer. -/
theorem decrease_guarded_and_cancelled_witness :
    ((⟨80, 80, 50, initTrigger⟩ : CState).drop_delay_start ≠ 0 ∧
      (⟨false, 0, 95, true, 50, 50⟩ : TickIn).now -
        (⟨80, 80, 50, initTrigger⟩ : CState).drop_delay_start ≥ DROP_DELAY ∧
      (⟨false, 0, 95, true, 50, 50⟩ : TickIn).now ≥
        (⟨80, 80, 50, initTrigger⟩ : CState).cooldown_end) ∧
    (applySpeed ⟨80, 80, 50, initTrigger⟩ ⟨false, 0, 95, true, 50, 50⟩ 80 20
        "r").1.drop_delay_start = 0 :=
  ⟨decrease_guarded_and_cancelled.1 ⟨80, 80, 50, initTrigger⟩
      ⟨false, 0, 95, true, 50, 50⟩ 25 20 "low temp" (by decide)
      (by with_unfolding_all decide),
   decrease_guarded_and_cancelled.2 ⟨80, 80, 50, initTrigger⟩
      ⟨false, 0, 95, true, 50, 50⟩ 80 20 "moderate temp" rfl⟩

/-- C3 counterexample: with `spike_detected` and a proposal equal to
`current_speed` (so `target ≥ current`), the tick makes no actuator call at
all, contrary to the claim's spike-driven non-decrease case. -/
theorem spike_equal_proposal_no_call :
    (propose true 7 20 0 0).1 = 40 ∧
    (40 ≥ (⟨40, 0, 0, initTrigger⟩ : CState).current_speed) ∧
    (applySpeed ⟨40, 0, 0, initTrigger⟩ ⟨true, 7, 100, true, 50, 50⟩ 40 20
        "small usage spike").2 = [] := by decide

/-- C3 (amended): on every tick whose proposal is strictly greater than
`current_speed` the controller calls the actuator on that same tick, with no
delay and no guard; and a proposal equal to `current_speed` — spike or not —
makes no actuator call. -/
theorem increase_called_same_tick :
    (∀ (s : CState) (inp : TickIn) (ns : ℕ) (mt : ℤ) (r : String),
        ns > s.current_speed →
        madeSetCall (applySpeed s inp ns mt r).2 ns = true)
    ∧ (∀ (s : CState) (inp : TickIn) (mt : ℤ) (r : String),
        (applySpeed s inp s.current_speed mt r).2 = []) := by
  constructor
  · intro s inp ns mt r hgt
    unfold applySpeed
    split_ifs with h1 h2 h3
    · simp [madeSetCall]
    · simp [madeSetCall]
    · exact absurd (Or.inl hgt) h2
    · exact absurd (Or.inl hgt) h2
    · exact absurd (Or.inl hgt) h2
    · exact absurd (Or.inl hgt) h2
    · omega
  · intro s inp mt r
    unfold applySpeed
    simp

/-- C3 witness: an increase proposal is applied on the same tick even while a
drop delay is pending and the cooldown lies far in the future (no guard). -/
theorem increase_called_same_tick_witness :
    madeSetCall (applySpeed ⟨25, 1000, 3, initTrigger⟩
        ⟨false, 0, 10, true, 0, 0⟩ 100 55 "high temp").2 100 = true ∧
    (applySpeed ⟨40, 1000, 3, initTrigger⟩ ⟨false, 0, 10, true, 0, 0⟩ 40 35
        "idle temp").2 = [] :=
  ⟨increase_called_same_tick.1 ⟨25, 1000, 3, initTrigger⟩
      ⟨false, 0, 10, true, 0, 0⟩ 100 55 "high temp" (by decide),
   increase_called_same_tick.2 ⟨40, 1000, 3, initTrigger⟩
      ⟨false, 0, 10, true, 0, 0⟩ 35 "idle temp"⟩

/-- C4 counterexample: a change applied at `now = 100` sets
`cooldown_end = 130`, yet another change (an increase) is applied at
`now = 101 < 130` — the post-change cooldown does not guard increases. -/
theorem increase_during_cooldown :
    (applySpeed initCState ⟨false, 0, 100, true, 50, 50⟩ 40 35
        "idle temp").1.cooldown_end = 130 ∧
    ((101 : ℚ) < 130) ∧
    (applySpeed (applySpeed initCState ⟨false, 0, 100, true, 50, 50⟩ 40 35
          "idle temp").1
        ⟨false, 0, 101, true, 50, 50⟩ 100 55 "high temp").1.current_speed
      = 100 := by with_unfolding_all decide

/-- C4 (amended): after an applied change the cooldown guards only decreases:
an actuator call lowering `current_speed` happens only once
`now ≥ cooldown_end`, while a strictly greater proposal is applied on the same
tick no matter the cooldown. -/
theorem cooldown_guards_only_decreases :
    (∀ (s : CState) (inp : TickIn) (ns : ℕ) (mt : ℤ) (r : String),
        ns < s.current_speed →
        madeSetCall (applySpeed s inp ns mt r).2 ns = true →
        inp.now ≥ s.cooldown_end)
    ∧ (∀ (s : CState) (inp : TickIn) (ns : ℕ) (mt : ℤ) (r : String),
        ns > s.current_speed → inp.now < s.cooldown_end →
        madeSetCall (applySpeed s inp ns mt r).2 ns = true) := by
  constructor
  · intro s inp ns mt r hlt hcall
    exact (decrease_guarded_and_cancelled.1 s inp ns mt r hlt hcall).2.2
  · intro s inp ns mt r hgt _
    exact increase_called_same_tick.1 s inp ns mt r hgt

/-- C4 witness: concretely, the decrease guard fact at an applying state, and
an increase applied although the cooldown lies ahead. -/
theorem cooldown_guards_only_decreases_witness :
    ((⟨false, 0, 95, true, 50, 50⟩ : TickIn).now ≥
      (⟨80, 80, 50, initTrigger⟩ : CState).cooldown_end) ∧
    madeSetCall (applySpeed ⟨25, 1000, 0, initTrigger⟩
        ⟨true, 30, 10, true, 90, 60⟩ 100 20 "extreme usage spike").2 100
      = true :=
  ⟨cooldown_guards_only_decreases.1 ⟨80, 80, 50, initTrigger⟩
      ⟨false, 0, 95, true, 50, 50⟩ 25 20 "low temp" (by decide)
      (by with_unfolding_all decide),
   cooldown_guards_only_decreases.2 ⟨25, 1000, 0, initTrigger⟩
      ⟨true, 30, 10, true, 90, 60⟩ 100 20 "extreme usage spike" (by decide)
      (by with_unfolding_all decide)⟩

/-- C5: on any tick whose actuator call fails (the retry loop returned
failure), the whole persistent controller state — `current_speed`,
`cooldown_end`, `drop_delay_start`, `last_trigger` — is unchanged and no
notification is fired. -/
theorem actuator_failure_no_mutation :
    ∀ (s : CState) (inp : TickIn) (ns : ℕ) (mt : ℤ) (r : String),
      inp.set_ok = false →
      madeSetCall (applySpeed s inp ns mt r).2 ns = true →
      (applySpeed s inp ns mt r).1 = s ∧
        noNotify (applySpeed s inp ns mt r).2 = true := by
  intro s inp ns mt r hfail hcall
  unfold applySpeed at hcall ⊢
  split_ifs at hcall ⊢ with h1 h2 h3 h4 h5 h6
  · simp [hfail] at h3
  · exact ⟨rfl, rfl⟩
  · simp [madeSetCall] at hcall
  · simp [hfail] at h6
  · exact ⟨rfl, rfl⟩
  · simp [madeSetCall] at hcall
  · simp [madeSetCall] at hcall

/-- C5 witness: a failing increase call at a concrete state leaves the state
intact and fires nothing. -/
theorem actuator_failure_no_mutation_witness :
    (applySpeed ⟨25, 0, 0, initTrigger⟩ ⟨false, 0, 100, false, 0, 0⟩ 100 55
        "high temp").1 = ⟨25, 0, 0, initTrigger⟩ ∧
    noNotify (applySpeed ⟨25, 0, 0, initTrigger⟩ ⟨false, 0, 100, false, 0, 0⟩
        100 55 "high temp").2 = true :=
  actuator_failure_no_mutation ⟨25, 0, 0, initTrigger⟩
    ⟨false, 0, 100, false, 0, 0⟩ 100 55 "high temp" rfl (by decide)

/-- C8: a tick whose proposal equals `current_speed` makes no actuator call
and is exactly the clearing of `drop_delay_start` (so `current_speed`,
`cooldown_end` and `last_trigger` are untouched and `cooldown_end` is never
reset), and repeating it is idempotent. -/
theorem equal_proposal_idempotent :
    ∀ (s : CState) (inp : TickIn) (ns : ℕ) (mt : ℤ) (r : String),
      ns = s.current_speed →
      applySpeed s inp ns mt r = ({ s with drop_delay_start := 0 }, []) ∧
        applySpeed { s with drop_delay_start := 0 } inp ns mt r
          = ({ s with drop_delay_start := 0 }, []) := by
  intro s inp ns mt r heq
  subst heq
  unfold applySpeed
  simp

/-- C8 witness: at a concrete state with a live cooldown and a pending drop,
an equal proposal only clears the pending drop, twice over. -/
theorem equal_proposal_idempotent_witness :
    applySpeed ⟨60, 500, 7, ⟨1, 2, 3, "sustained temp"⟩⟩
        ⟨false, 0, 100, true, 10, 10⟩ 60 42 "sustained temp"
      = (⟨60, 500, 0, ⟨1, 2, 3, "sustained temp"⟩⟩, []) ∧
    applySpeed ⟨60, 500, 0, ⟨1, 2, 3, "sustained temp"⟩⟩
        ⟨false, 0, 100, true, 10, 10⟩ 60 42 "sustained temp"
      = (⟨60, 500, 0, ⟨1, 2, 3, "sustained temp"⟩⟩, []) :=
  equal_proposal_idempotent ⟨60, 500, 7, ⟨1, 2, 3, "sustained temp"⟩⟩
    ⟨false, 0, 100, true, 10, 10⟩ 60 42 "sustained temp" rfl

/-- C9: while a decrease is pending and its delay has not expired, any tick
proposing a (possibly different) speed strictly below `current_speed` leaves
`drop_delay_start` unchanged and makes no call; and the timer is only ever
cleared when it was already clear, the proposal equals `current_speed`, or a
change was actually applied (successful actuator call). -/
theorem pending_decrease_timer_frame :
    (∀ (s : CState) (inp : TickIn) (ns : ℕ) (mt : ℤ) (r : String),
        s.drop_delay_start ≠ 0 →
        inp.now - s.drop_delay_start < DROP_DELAY →
        ns < s.current_speed →
        (applySpeed s inp ns mt r).1.drop_delay_start = s.drop_delay_start ∧
          (applySpeed s inp ns mt r).2 = [])
    ∧ (∀ (s : CState) (inp : TickIn) (ns : ℕ) (mt : ℤ) (r : String),
        (applySpeed s inp ns mt r).1.drop_delay_start = 0 →
        s.drop_delay_start = 0 ∨ ns = s.current_speed ∨
          (madeSetCall (applySpeed s inp ns mt r).2 ns = true ∧
            inp.set_ok = true)) := by
  constructor
  · intro s inp ns mt r hpend hyoung hlt
    unfold applySpeed
    split_ifs with h1 h2 h3 h4 h5
    · omega
    · omega
    · exact absurd h4.1 (by linarith)
    · exact absurd h4.1 (by linarith)
    · exact ⟨rfl, rfl⟩
    · omega
  · intro s inp ns mt r hcleared
    unfold applySpeed at hcleared ⊢
    split_ifs at hcleared ⊢ with h1 h2 h3 h4 h5 h6
    · exact Or.inr (Or.inr ⟨by simp [madeSetCall], h3⟩)
    · exact Or.inl hcleared
    · exact Or.inl h4
    · exact Or.inr (Or.inr ⟨by simp [madeSetCall], h6⟩)
    · exact Or.inl hcleared
    · exact Or.inl hcleared
    · exact Or.inr (Or.inl (by omega))

/-- C9 witness: a pending decrease (started at 50) is not restarted at time 60
by a different, lower proposal, and a cleared timer at a concrete tick falls
under one of the three allowed reasons. -/
theorem pending_decrease_timer_frame_witness :
    ((applySpeed ⟨80, 0, 50, initTrigger⟩ ⟨false, 0, 60, true, 10, 10⟩ 25 20
        "low temp").1.drop_delay_start
      = (⟨80, 0, 50, initTrigger⟩ : CState).drop_delay_start ∧
     (applySpeed ⟨80, 0, 50, initTrigger⟩ ⟨false, 0, 60, true, 10, 10⟩ 25 20
        "low temp").2 = []) ∧
    ((⟨40, 0, 7, initTrigger⟩ : CState).drop_delay_start = 0 ∨ 40 = 40 ∨
      (madeSetCall (applySpeed ⟨40, 0, 7, initTrigger⟩
          ⟨false, 0, 60, true, 10, 10⟩ 40 35 "idle temp").2 40 = true ∧
        True)) :=
  ⟨pending_decrease_timer_frame.1 ⟨80, 0, 50, initTrigger⟩
      ⟨false, 0, 60, true, 10, 10⟩ 25 20 "low temp" (by decide)
      (by with_unfolding_all decide) (by decide),
   (pending_decrease_timer_frame.2 ⟨40, 0, 7, initTrigger⟩
      ⟨false, 0, 60, true, 10, 10⟩ 40 35 "idle temp" rfl).imp id
      (Or.imp id fun h => ⟨h.1, trivial⟩)⟩

/-- C7 counterexample: on the very first sample after startup the window has
length 1 and the new max (40) strictly exceeds the previous max (25), yet the
computed trend is "falling", not "rising" — the `len(temp_window) > 1`
conjunct guards only the rising arm. -/
theorem first_sample_trend_falling :
    initTempState.last_max_temp = 25 ∧
    (tempUpdate initTempState 40 20 30 30).max_temp = 40 ∧
    (tempUpdate initTempState 40 20 30 30).temp_window.length = 1 ∧
    (tempUpdate initTempState 40 20 30 30).temp_trend = "falling" := by decide

/-- C7 (amended): on every successful read the trend is "rising" exactly when
the appended window has more than one entry AND the new max exceeds the
previous max; "stable" exactly when that fails and the new max equals the
previous max; "falling" otherwise — so the first sample after startup reports
"falling" even for a strictly higher reading. -/
theorem trend_encodes_comparison :
    ∀ (ts : TempState) (i e c1 c2 : ℤ),
      ((tempUpdate ts i e c1 c2).temp_trend = "rising" ↔
        ((tempUpdate ts i e c1 c2).temp_window.length > 1 ∧
          (tempUpdate ts i e c1 c2).max_temp > ts.last_max_temp)) ∧
      ((tempUpdate ts i e c1 c2).temp_trend = "stable" ↔
        (¬((tempUpdate ts i e c1 c2).temp_window.length > 1 ∧
            (tempUpdate ts i e c1 c2).max_temp > ts.last_max_temp) ∧
          (tempUpdate ts i e c1 c2).max_temp = ts.last_max_temp)) ∧
      ((tempUpdate ts i e c1 c2).temp_trend = "falling" ↔
        (¬((tempUpdate ts i e c1 c2).temp_window.length > 1 ∧
            (tempUpdate ts i e c1 c2).max_temp > ts.last_max_temp) ∧
          (tempUpdate ts i e c1 c2).max_temp ≠ ts.last_max_temp)) := by
  intro ts i e c1 c2
  unfold tempUpdate
  simp only
  split_ifs with h1 h2 <;> refine ⟨?_, ?_, ?_⟩ <;> simp_all

/-- C6: the temperature read does NOT return `None` on every parse failure: a
non-numeric value field raises an uncaught `ValueError` that escapes into the
main tick, and an output missing labelled rows yields a dict whose subscripts
raise `KeyError` in the tick — both crash instead of skipping the update.
Only a failed invocation (`CalledProcessError`) is caught and degrades to
`None`, whereupon the tick keeps the previous temperature state. -/
theorem sensor_parse_failure_crashes :
    get_sensor_data true ["Inlet Temp        | abc       | degrees C".toList]
      = .error .valueError ∧
    mainTempSection initTempState
        (get_sensor_data true
          ["Inlet Temp        | abc       | degrees C".toList])
      = .error .valueError ∧
    get_sensor_data true ["Inlet Temperature with no pipe".toList]
      = .error .indexError ∧
    mainTempSection initTempState
        (get_sensor_data true ["Inlet Temp | 41 | ok".toList])
      = .error .keyError ∧
    get_sensor_data false [] = .ok none ∧
    mainTempSection ⟨44, 43, [40, 41, 42, 43, 44], 1, "rising"⟩
        (get_sensor_data false [])
      = .ok ⟨44, 43, [40, 41, 42, 43, 44], 1, "rising"⟩ := by decide

/-- C10: a tick whose temperature read fails (returns `None`) leaves the whole
temperature state — including the `temp_rate` local computed on the last
successful read — untouched and feeds exactly those stale values to the
decision engine. -/
theorem failed_read_uses_stale_rate :
    ∀ (s : LoopState) (inp : TickIn),
      s.temps.temp_window.length ≥ 5 →
      tick s (Except.ok none) inp =
        Except.ok
          { state :=
              { ctrl := (applySpeed s.ctrl inp
                  (propose inp.spike_detected inp.spike_size s.temps.max_temp
                    s.temps.temp_rate s.temps.temp_window.length).1
                  s.temps.max_temp
                  (propose inp.spike_detected inp.spike_size s.temps.max_temp
                    s.temps.temp_rate s.temps.temp_window.length).2).1,
                temps := s.temps },
            proposal := (propose inp.spike_detected inp.spike_size
              s.temps.max_temp s.temps.temp_rate s.temps.temp_window.length).1,
            events := (applySpeed s.ctrl inp
              (propose inp.spike_detected inp.spike_size s.temps.max_temp
                s.temps.temp_rate s.temps.temp_window.length).1
              s.temps.max_temp
              (propose inp.spike_detected inp.spike_size s.temps.max_temp
                s.temps.temp_rate s.temps.temp_window.length).2).2 } := by
  intro s inp _
  rfl

/-- C10 witness: after five successful reads left `temp_rate = 1` and
`max_temp = 25`, a failing-read tick proposes with the stale rate — yielding
the fast-rise 80 — whereas a rate reset to 0 would have proposed 25. -/
theorem failed_read_uses_stale_rate_witness :
    (tick ⟨⟨25, 0, 0, initTrigger⟩, ⟨25, 25, [20, 21, 22, 23, 25], 1, "rising"⟩⟩
        (Except.ok none) ⟨false, 0, 100, true, 10, 10⟩
      = Except.ok
          { state :=
              { ctrl := (applySpeed ⟨25, 0, 0, initTrigger⟩
                  ⟨false, 0, 100, true, 10, 10⟩ (propose false 0 25 1 5).1 25
                  (propose false 0 25 1 5).2).1,
                temps := ⟨25, 25, [20, 21, 22, 23, 25], 1, "rising"⟩ },
            proposal := (propose false 0 25 1 5).1,
            events := (applySpeed ⟨25, 0, 0, initTrigger⟩
              ⟨false, 0, 100, true, 10, 10⟩ (propose false 0 25 1 5).1 25
              (propose false 0 25 1 5).2).2 }) ∧
    (propose false 0 25 1 5).1 = 80 ∧ (propose false 0 25 0 5).1 = 25 :=
  ⟨failed_read_uses_stale_rate
      ⟨⟨25, 0, 0, initTrigger⟩, ⟨25, 25, [20, 21, 22, 23, 25], 1, "rising"⟩⟩
      ⟨false, 0, 100, true, 10, 10⟩ (by decide),
   by with_unfolding_all decide, by with_unfolding_all decide⟩
